import Mathlib

/-!
Formal model of the calculation modules of the RFQ tool-quoting program:
clamping force (calculations/clamping_force.py), shot volume and barrel
usage (calculations/shot_volume.py), demand feasibility and cavity
recommendation (calculations/sanity_checks.py), machine fit
(calculations/tool_sizing.py), screw ratio (calculations/injection_check.py),
weight-volume conversion (calculations/weight_volume_helper.py) and the
Material pressure model (database/models.py).

Numbers are modelled as rationals.  Optional values are Option.  Python
truthiness on an optional float (None and 0.0 are falsy) is pyTruthy.
The builtin round(x, n) rounds half to even; it is pythonRound scaled,
and int(x) truncates toward zero (pytrunc).  Messages carry no data that
the calculations branch on, so each distinct message is modelled as a
constructor of a small inductive type.
-/

/-- Round half to even to an integer, the semantics of Python's round. -/
def pythonRound (x : ℚ) : ℤ :=
  if x - ⌊x⌋ < 1/2 then ⌊x⌋
  else if 1/2 < x - ⌊x⌋ then ⌊x⌋ + 1
  else if ⌊x⌋ % 2 = 0 then ⌊x⌋ else ⌊x⌋ + 1

/-- Python's round(x, 1). -/
def pyRound1 (x : ℚ) : ℚ := (pythonRound (x * 10) : ℚ) / 10

/-- Python's round(x, 2). -/
def pyRound2 (x : ℚ) : ℚ := (pythonRound (x * 100) : ℚ) / 100

/-- Python's int(x): truncation toward zero. -/
def pytrunc (x : ℚ) : ℤ := if 0 ≤ x then ⌊x⌋ else ⌈x⌉

/-- Ordinary half-up rounding, the plain reading of the spec's round. -/
def roundHalfUp (x : ℚ) : ℤ := ⌊x + 1/2⌋

/-- Python truthiness of an optional float: None and 0.0 are falsy. -/
def pyTruthy : Option ℚ → Bool
  | none => false
  | some x => x != 0

/-- Python's a or b on optional floats. -/
def pyOr (a b : Option ℚ) : Option ℚ := if pyTruthy a then a else b

/-- Material (database/models.py): the two specific-pressure bounds the
calculations read. -/
structure Material where
  specific_pressure_min_bar : Option ℚ
  specific_pressure_max_bar : Option ℚ
deriving DecidableEq

/-- Material.specific_pressure_avg_bar (database/models.py): midpoint when
both bounds are truthy, else the Python or of the bounds. -/
def Material.specific_pressure_avg_bar (m : Material) : Option ℚ :=
  if pyTruthy m.specific_pressure_min_bar && pyTruthy m.specific_pressure_max_bar then
    some ((m.specific_pressure_min_bar.getD 0 + m.specific_pressure_max_bar.getD 0) / 2)
  else
    pyOr m.specific_pressure_min_bar m.specific_pressure_max_bar

/-- calculate_clamping_force (calculations/clamping_force.py):
round(area x pressure x cavities x 0.01 x safety, 1). -/
def calculate_clamping_force (projected_area_cm2 specific_pressure_bar : ℚ)
    (cavities : ℤ) (safety_factor : ℚ) : ℚ :=
  pyRound1 (projected_area_cm2 * specific_pressure_bar * cavities * (1/100) * safety_factor)

/-- calculate_clamping_force_from_material (calculations/clamping_force.py). -/
def calculate_clamping_force_from_material (projected_area_cm2 : ℚ) (m : Material)
    (cavities : ℤ) (safety_factor : ℚ) (use_max_pressure : Bool) : Option ℚ :=
  let pressure := if use_max_pressure then m.specific_pressure_max_bar
                  else m.specific_pressure_avg_bar
  match pressure with
  | none => none
  | some p => some (calculate_clamping_force projected_area_cm2 p cavities safety_factor)

/-- Part (database/models.py): the field the tool force loop reads. -/
structure MoldedPart where
  projected_area_cm2 : Option ℚ
deriving DecidableEq

/-- ToolPartConfiguration (database/models.py). -/
structure ToolPartConfiguration where
  part : Option MoldedPart
  cavities : ℤ
deriving DecidableEq

/-- Tool (database/models.py): its list of part configurations. -/
structure Tool where
  part_configurations : List ToolPartConfiguration
deriving DecidableEq

/-- The per-part loop of calculate_clamping_force_for_tool: parts with a
truthy projected area contribute their clamping force. -/
def tool_parts_force (pcs : List ToolPartConfiguration) (pressure safety_factor : ℚ) : ℚ :=
  pcs.foldl (fun acc pc =>
    match pc.part with
    | some part =>
        if pyTruthy part.projected_area_cm2 then
          acc + calculate_clamping_force (part.projected_area_cm2.getD 0) pressure
                  pc.cavities safety_factor
        else acc
    | none => acc) 0

/-- Which source the pressure of a tool calculation came from (the
pressure_source note of calculate_clamping_force_for_tool). -/
inductive PressureSource where
  | manualOverride
  | materialAvg
deriving DecidableEq

/-- The notes component of calculate_clamping_force_for_tool's result. -/
inductive CFNote where
  | noPressureData
  | legacyNoConfig
  | computed (src : PressureSource)
deriving DecidableEq

/-- calculate_clamping_force_for_tool (calculations/clamping_force.py):
a truthy manual override wins, else the material average; a None pressure
is the no-pressure-data failure; an empty configuration list is the legacy
failure; else the rounded sum over the part configurations. -/
def calculate_clamping_force_for_tool (tool : Tool) (m : Material)
    (manual_pressure_override_bar : Option ℚ) (safety_factor : ℚ) : Option ℚ × CFNote :=
  let pressure := if pyTruthy manual_pressure_override_bar then manual_pressure_override_bar
                  else m.specific_pressure_avg_bar
  let src := if pyTruthy manual_pressure_override_bar then PressureSource.manualOverride
             else PressureSource.materialAvg
  match pressure with
  | none => (none, CFNote.noPressureData)
  | some p =>
      if tool.part_configurations.isEmpty then (none, CFNote.legacyNoConfig)
      else (some (pyRound1 (tool_parts_force tool.part_configurations p safety_factor)),
            CFNote.computed src)

/-- The status named by the message of a BarrelUsageResult
(calculations/shot_volume.py). -/
inductive BUStatus where
  | noData
  | ok
  | warning
  | critical
deriving DecidableEq

/-- BarrelUsageResult (calculations/shot_volume.py); status stands for the
message's leading word. -/
structure BarrelUsageResult where
  percent : ℚ
  is_warning : Bool
  is_critical : Bool
  status : BUStatus
deriving DecidableEq

/-- calculate_barrel_usage (calculations/shot_volume.py): missing or
non-positive barrel volume is the no-data result; else the thresholds are
compared against the unrounded usage percentage and the returned percent
is rounded to one decimal. -/
def calculate_barrel_usage (shot_volume_cm3 : ℚ) (barrel_volume_cm3 : Option ℚ)
    (warn_percent critical_percent : ℚ) : BarrelUsageResult :=
  match barrel_volume_cm3 with
  | none => ⟨0, false, false, BUStatus.noData⟩
  | some b =>
      if b ≤ 0 then ⟨0, false, false, BUStatus.noData⟩
      else
        let usage := shot_volume_cm3 / b * 100
        if usage ≥ critical_percent then ⟨pyRound1 usage, true, true, BUStatus.critical⟩
        else if usage ≥ warn_percent then ⟨pyRound1 usage, true, false, BUStatus.warning⟩
        else ⟨pyRound1 usage, false, false, BUStatus.ok⟩

/-- The issue messages of check_demand_feasibility
(calculations/sanity_checks.py). -/
inductive DemandIssue where
  | cycleTimeNotPositive
  | cavitiesNotPositive
  | hoursExceedAvailable
  | utilizationTooHigh
deriving DecidableEq

/-- The warning messages of check_demand_feasibility
(calculations/sanity_checks.py). -/
inductive DemandWarning where
  | highUtilization
  | lowUtilization
  | veryShortCycleTime
  | longCycleTime
deriving DecidableEq

/-- DemandCheckResult (calculations/sanity_checks.py). -/
structure DemandCheckResult where
  feasible : Bool
  machine_hours_per_year : ℚ
  machine_hours_per_week : ℚ
  utilization_percent : ℚ
  issues : List DemandIssue
  warnings : List DemandWarning
deriving DecidableEq

/-- parts_per_hour of check_demand_feasibility:
(3600 / cycle_time) x cavities x efficiency. -/
def demand_parts_per_hour (cycle_time_s : ℚ) (cavities : ℤ) (efficiency : ℚ) : ℚ :=
  3600 / cycle_time_s * cavities * efficiency

/-- hours_needed_per_year of check_demand_feasibility. -/
def demand_hours_needed_per_year (annual_demand : ℤ) (cycle_time_s : ℚ)
    (cavities : ℤ) (efficiency : ℚ) : ℚ :=
  annual_demand / demand_parts_per_hour cycle_time_s cavities efficiency

/-- hours_needed_per_week of check_demand_feasibility. -/
def demand_hours_needed_per_week (annual_demand : ℤ) (cycle_time_s : ℚ)
    (cavities : ℤ) (efficiency : ℚ) (weeks_per_year : ℤ) : ℚ :=
  demand_hours_needed_per_year annual_demand cycle_time_s cavities efficiency / weeks_per_year

/-- The utilization percentage of check_demand_feasibility. -/
def demand_utilization (annual_demand : ℤ) (cycle_time_s : ℚ) (cavities : ℤ)
    (available_hours_per_week : ℚ) (weeks_per_year : ℤ) (efficiency : ℚ) : ℚ :=
  demand_hours_needed_per_year annual_demand cycle_time_s cavities efficiency
    / (available_hours_per_week * weeks_per_year) * 100

/-- The plausibility warnings check_demand_feasibility appends after the
feasibility decision: one for a cycle time under 3 s, one for over 120 s. -/
def plausibility_warnings (cycle_time_s : ℚ) : List DemandWarning :=
  (if cycle_time_s < 3 then [DemandWarning.veryShortCycleTime] else [])
    ++ (if cycle_time_s > 120 then [DemandWarning.longCycleTime] else [])

/-- check_demand_feasibility (calculations/sanity_checks.py). -/
def check_demand_feasibility (annual_demand : ℤ) (cycle_time_s : ℚ) (cavities : ℤ)
    (available_hours_per_week : ℚ) (weeks_per_year : ℤ) (efficiency : ℚ) :
    DemandCheckResult :=
  if cycle_time_s ≤ 0 then
    ⟨false, 0, 0, 0, [DemandIssue.cycleTimeNotPositive], []⟩
  else if cavities ≤ 0 then
    ⟨false, 0, 0, 0, [DemandIssue.cavitiesNotPositive], []⟩
  else
    let hnY := demand_hours_needed_per_year annual_demand cycle_time_s cavities efficiency
    let hnW := demand_hours_needed_per_week annual_demand cycle_time_s cavities efficiency
                 weeks_per_year
    let util := demand_utilization annual_demand cycle_time_s cavities
                  available_hours_per_week weeks_per_year efficiency
    let iw : List DemandIssue × List DemandWarning :=
      if hnW > available_hours_per_week then ([DemandIssue.hoursExceedAvailable], [])
      else if util > 95 then ([DemandIssue.utilizationTooHigh], [])
      else if util > 85 then ([], [DemandWarning.highUtilization])
      else if util < 30 then ([], [DemandWarning.lowUtilization])
      else ([], [])
    ⟨iw.1.isEmpty, pyRound1 hnY, pyRound1 hnW, pyRound1 util, iw.1,
     iw.2 ++ plausibility_warnings cycle_time_s⟩

/-- parts_per_cavity_per_year of check_cavity_recommendation:
(3600 / cycle_time) x (hours_per_week x weeks x target_utilization) x efficiency. -/
def cavity_parts_per_cavity_per_year (cycle_time_s target_utilization
    available_hours_per_week : ℚ) (weeks_per_year : ℤ) (efficiency : ℚ) : ℚ :=
  3600 / cycle_time_s * (available_hours_per_week * weeks_per_year * target_utilization)
    * efficiency

/-- check_cavity_recommendation (calculations/sanity_checks.py):
max(1, min(int(demand / parts_per_cavity_per_year + 0.5), max_cavities)),
with 1 for a non-positive cycle time or capacity. -/
def check_cavity_recommendation (annual_demand : ℤ) (cycle_time_s target_utilization
    available_hours_per_week : ℚ) (weeks_per_year : ℤ) (efficiency : ℚ)
    (max_cavities : ℤ) : ℤ :=
  if cycle_time_s ≤ 0 then 1
  else
    let ppcy := cavity_parts_per_cavity_per_year cycle_time_s target_utilization
                  available_hours_per_week weeks_per_year efficiency
    if ppcy ≤ 0 then 1
    else max 1 (min (pytrunc (annual_demand / ppcy + 1/2)) max_cavities)

/-- Machine (database/models.py): the fields check_machine_fit reads. -/
structure Machine where
  platen_width_mm : Option ℚ
  platen_height_mm : Option ℚ
  tie_bar_spacing_h_mm : Option ℚ
  tie_bar_spacing_v_mm : Option ℚ
  max_mold_height_mm : Option ℚ
  min_mold_height_mm : Option ℚ
  clamping_force_kn : Option ℚ
  shot_weight_g : Option ℚ
deriving DecidableEq

/-- The issue messages of check_machine_fit (calculations/tool_sizing.py). -/
inductive FitIssue where
  | toolWidthExceedsPlaten
  | toolHeightExceedsPlaten
  | toolWidthExceedsTieBar
  | toolHeightExceedsTieBar
  | moldHeightAboveMax
  | moldHeightBelowMin
  | clampingExceedsCapacity
  | shotExceedsEightyPercent
deriving DecidableEq

/-- The warning messages of check_machine_fit (calculations/tool_sizing.py). -/
inductive FitWarning where
  | toolWidthNearPlaten
  | toolHeightNearPlaten
  | highClampingUtilization
  | lowClampingUtilization
  | highShotUtilization
deriving DecidableEq

/-- MachineCheckResult (calculations/tool_sizing.py). -/
structure MachineCheckResult where
  fits : Bool
  issues : List FitIssue
  warnings : List FitWarning
deriving DecidableEq

/-- The platen-width block of check_machine_fit. -/
def platen_width_check (tool_width_mm : Option ℚ) (m : Machine) :
    List FitIssue × List FitWarning :=
  if pyTruthy tool_width_mm && pyTruthy m.platen_width_mm then
    let t := tool_width_mm.getD 0
    let p := m.platen_width_mm.getD 0
    if t > p then ([FitIssue.toolWidthExceedsPlaten], [])
    else if t > p * (95/100) then ([], [FitWarning.toolWidthNearPlaten])
    else ([], [])
  else ([], [])

/-- The platen-height block of check_machine_fit. -/
def platen_height_check (tool_height_mm : Option ℚ) (m : Machine) :
    List FitIssue × List FitWarning :=
  if pyTruthy tool_height_mm && pyTruthy m.platen_height_mm then
    let t := tool_height_mm.getD 0
    let p := m.platen_height_mm.getD 0
    if t > p then ([FitIssue.toolHeightExceedsPlaten], [])
    else if t > p * (95/100) then ([], [FitWarning.toolHeightNearPlaten])
    else ([], [])
  else ([], [])

/-- The horizontal tie-bar block of check_machine_fit. -/
def tie_bar_h_check (tool_width_mm : Option ℚ) (m : Machine) :
    List FitIssue × List FitWarning :=
  if pyTruthy tool_width_mm && pyTruthy m.tie_bar_spacing_h_mm then
    if tool_width_mm.getD 0 > m.tie_bar_spacing_h_mm.getD 0 then
      ([FitIssue.toolWidthExceedsTieBar], [])
    else ([], [])
  else ([], [])

/-- The vertical tie-bar block of check_machine_fit. -/
def tie_bar_v_check (tool_height_mm : Option ℚ) (m : Machine) :
    List FitIssue × List FitWarning :=
  if pyTruthy tool_height_mm && pyTruthy m.tie_bar_spacing_v_mm then
    if tool_height_mm.getD 0 > m.tie_bar_spacing_v_mm.getD 0 then
      ([FitIssue.toolHeightExceedsTieBar], [])
    else ([], [])
  else ([], [])

/-- The mold-height block of check_machine_fit (both bounds checked
independently inside a truthy tool length). -/
def mold_height_check (tool_length_mm : Option ℚ) (m : Machine) :
    List FitIssue × List FitWarning :=
  if pyTruthy tool_length_mm then
    let t := tool_length_mm.getD 0
    ((if pyTruthy m.max_mold_height_mm && decide (t > m.max_mold_height_mm.getD 0) then
        [FitIssue.moldHeightAboveMax] else [])
      ++ (if pyTruthy m.min_mold_height_mm && decide (t < m.min_mold_height_mm.getD 0) then
        [FitIssue.moldHeightBelowMin] else []), [])
  else ([], [])

/-- The clamping-force block of check_machine_fit. -/
def clamping_check (required_clamping_kn : Option ℚ) (m : Machine) :
    List FitIssue × List FitWarning :=
  if pyTruthy required_clamping_kn && pyTruthy m.clamping_force_kn then
    let u := required_clamping_kn.getD 0 / m.clamping_force_kn.getD 0
    if u > 1 then ([FitIssue.clampingExceedsCapacity], [])
    else if u > 9/10 then ([], [FitWarning.highClampingUtilization])
    else if u < 3/10 then ([], [FitWarning.lowClampingUtilization])
    else ([], [])
  else ([], [])

/-- The shot-weight block of check_machine_fit. -/
def shot_weight_check (required_shot_weight_g : Option ℚ) (m : Machine) :
    List FitIssue × List FitWarning :=
  if pyTruthy required_shot_weight_g && pyTruthy m.shot_weight_g then
    let u := required_shot_weight_g.getD 0 / m.shot_weight_g.getD 0
    if u > 8/10 then ([FitIssue.shotExceedsEightyPercent], [])
    else if u > 7/10 then ([], [FitWarning.highShotUtilization])
    else ([], [])
  else ([], [])

/-- check_machine_fit (calculations/tool_sizing.py): the blocks run in
source order, each appending to the shared issue and warning lists, and
the tool fits exactly when the issue list stayed empty. -/
def check_machine_fit (tool_width_mm tool_height_mm tool_length_mm
    required_clamping_kn : Option ℚ) (m : Machine)
    (required_shot_weight_g : Option ℚ) : MachineCheckResult :=
  let c1 := platen_width_check tool_width_mm m
  let c2 := platen_height_check tool_height_mm m
  let c3 := tie_bar_h_check tool_width_mm m
  let c4 := tie_bar_v_check tool_height_mm m
  let c5 := mold_height_check tool_length_mm m
  let c6 := clamping_check required_clamping_kn m
  let c7 := shot_weight_check required_shot_weight_g m
  let issues := c1.1 ++ c2.1 ++ c3.1 ++ c4.1 ++ c5.1 ++ c6.1 ++ c7.1
  let warnings := c1.2 ++ c2.2 ++ c3.2 ++ c4.2 ++ c5.2 ++ c6.2 ++ c7.2
  ⟨issues.isEmpty, issues, warnings⟩

/-- The status named by the message of a ScrewDiameterCheckResult
(calculations/injection_check.py). -/
inductive ScrewStatus where
  | invalidDiameter
  | optimal
  | acceptable
  | outOfRange
deriving DecidableEq

/-- ScrewDiameterCheckResult (calculations/injection_check.py); status
stands for the message's leading words. -/
structure ScrewDiameterCheckResult where
  ratio : ℚ
  is_optimal : Bool
  is_acceptable : Bool
  status : ScrewStatus
deriving DecidableEq

/-- check_screw_diameter_ratio (calculations/injection_check.py). -/
def check_screw_diameter_ratio (stroke_mm diameter_mm optimal_min optimal_max
    acceptable_min acceptable_max : ℚ) : ScrewDiameterCheckResult :=
  if diameter_mm ≤ 0 then ⟨0, false, false, ScrewStatus.invalidDiameter⟩
  else
    let r := stroke_mm / diameter_mm
    if optimal_min ≤ r ∧ r ≤ optimal_max then
      ⟨pyRound2 r, true, true, ScrewStatus.optimal⟩
    else if acceptable_min ≤ r ∧ r ≤ acceptable_max then
      ⟨pyRound2 r, false, true, ScrewStatus.acceptable⟩
    else ⟨pyRound2 r, false, false, ScrewStatus.outOfRange⟩

/-- auto_calculate_volume (calculations/weight_volume_helper.py). -/
def auto_calculate_volume (weight_g density_g_cm3 : ℚ) : Option ℚ :=
  if weight_g ≤ 0 ∨ density_g_cm3 ≤ 0 then none
  else some (pyRound2 (weight_g / density_g_cm3))

/-- auto_calculate_weight (calculations/weight_volume_helper.py). -/
def auto_calculate_weight (volume_cm3 density_g_cm3 : ℚ) : Option ℚ :=
  if volume_cm3 ≤ 0 ∨ density_g_cm3 ≤ 0 then none
  else some (pyRound2 (volume_cm3 * density_g_cm3))

/-- Rounding never goes below the floor. -/
theorem floor_le_pythonRound (x : ℚ) : ⌊x⌋ ≤ pythonRound x := by
  unfold pythonRound
  split_ifs <;> omega

/-- Rounding never goes above the floor plus one. -/
theorem pythonRound_le_floor_add_one (x : ℚ) : pythonRound x ≤ ⌊x⌋ + 1 := by
  unfold pythonRound
  split_ifs <;> omega

/-- Half-to-even rounding is monotone. -/
theorem pythonRound_mono {x y : ℚ} (h : x ≤ y) : pythonRound x ≤ pythonRound y := by
  rcases lt_or_eq_of_le (Int.floor_mono h) with hf | hf
  · calc pythonRound x ≤ ⌊x⌋ + 1 := pythonRound_le_floor_add_one x
      _ ≤ ⌊y⌋ := by omega
      _ ≤ pythonRound y := floor_le_pythonRound y
  · unfold pythonRound
    rw [hf]
    split_ifs <;> first | omega | linarith

/-- Half-to-even rounding moves a value by at most one half. -/
theorem abs_pythonRound_sub (x : ℚ) : |(pythonRound x : ℚ) - x| ≤ 1/2 := by
  have h1 := Int.floor_le x
  have h2 := Int.lt_floor_add_one x
  unfold pythonRound
  split_ifs <;> rw [abs_sub_le_iff] <;> constructor <;> push_cast <;> linarith

/-- A value above one half rounds to at least one. -/
theorem one_le_pythonRound {x : ℚ} (h : 1/2 < x) : 1 ≤ pythonRound x := by
  have h0 : (0:ℤ) ≤ ⌊x⌋ := Int.floor_nonneg.mpr (by linarith)
  have h1 := Int.floor_le x
  unfold pythonRound
  split_ifs with c1 c2
  · have hq : (0:ℚ) < (⌊x⌋ : ℚ) := by linarith
    have hz : (0:ℤ) < ⌊x⌋ := by exact_mod_cast hq
    omega
  · omega
  · have hq : (0:ℚ) < (⌊x⌋ : ℚ) := by linarith
    have hz : (0:ℤ) < ⌊x⌋ := by exact_mod_cast hq
    omega
  · omega

/-- round(x, 1) is monotone. -/
theorem pyRound1_mono {x y : ℚ} (h : x ≤ y) : pyRound1 x ≤ pyRound1 y := by
  unfold pyRound1
  have h10 : x * 10 ≤ y * 10 := by linarith
  have hz := pythonRound_mono h10
  have hq : ((pythonRound (x * 10)) : ℚ) ≤ ((pythonRound (y * 10)) : ℚ) := by exact_mod_cast hz
  linarith

/-- round(x, 2) moves a value by at most 0.005. -/
theorem abs_pyRound2_sub (x : ℚ) : |pyRound2 x - x| ≤ 1/200 := by
  unfold pyRound2
  have h := abs_pythonRound_sub (x * 100)
  have he : (pythonRound (x * 100) : ℚ) / 100 - x = ((pythonRound (x * 100) : ℚ) - x * 100) / 100 := by
    ring
  rw [he, abs_div]
  rw [show |(100:ℚ)| = 100 by norm_num]
  linarith

/-- round(x, 2) of a value above 0.005 is at least 0.01. -/
theorem le_pyRound2_of_gt {x : ℚ} (h : 1/200 < x) : 1/100 ≤ pyRound2 x := by
  unfold pyRound2
  have h1 : 1/2 < x * 100 := by linarith
  have h2 := one_le_pythonRound h1
  have h3 : (1:ℚ) ≤ (pythonRound (x * 100) : ℚ) := by exact_mod_cast h2
  linarith

/-- Claim C3, counterexample: a present but zero minimum bound is falsy, so
for min = 0 bar and max = 500 bar the average property returns 500, not the
midpoint 250 the claim requires for two present bounds. -/
theorem material_pressure_avg_cex :
    Material.specific_pressure_avg_bar ⟨some 0, some 500⟩ = some 500
    ∧ ((0:ℚ) + 500) / 2 = 250
    ∧ some (250:ℚ) ≠ some (500:ℚ) := by
  refine ⟨?_, by norm_num, by simp⟩
  norm_num [Material.specific_pressure_avg_bar, pyTruthy, pyOr]

/-- Claim C3, amended: presence is Python truthiness, so a zero bound counts
as absent.  The average is the midpoint when both bounds are present and
nonzero; else the min bound when it is present and nonzero; else exactly the
max field (hence absent only when the max is also absent, and a present zero
max is passed through). -/
theorem material_pressure_avg_spec :
    (∀ (m : Material) (a b : ℚ), m.specific_pressure_min_bar = some a → a ≠ 0 →
        m.specific_pressure_max_bar = some b → b ≠ 0 →
        m.specific_pressure_avg_bar = some ((a + b) / 2))
    ∧ (∀ (m : Material) (a : ℚ), m.specific_pressure_min_bar = some a → a ≠ 0 →
        (m.specific_pressure_max_bar = none ∨ m.specific_pressure_max_bar = some 0) →
        m.specific_pressure_avg_bar = some a)
    ∧ (∀ (m : Material), (m.specific_pressure_min_bar = none ∨ m.specific_pressure_min_bar = some 0) →
        m.specific_pressure_avg_bar = m.specific_pressure_max_bar) := by
  refine ⟨?_, ?_, ?_⟩
  · rintro ⟨mn, mx⟩ a b rfl ha rfl hb
    simp [Material.specific_pressure_avg_bar, pyTruthy, ha, hb]
  · rintro ⟨mn, mx⟩ a rfl ha hmx
    rcases hmx with h | h <;> subst h <;>
      simp [Material.specific_pressure_avg_bar, pyTruthy, pyOr, ha]
  · rintro ⟨mn, mx⟩ hmn
    rcases hmn with h | h <;> subst h <;>
      simp [Material.specific_pressure_avg_bar, pyTruthy, pyOr]

/-- Claim C10: every barrel usage result that is critical is also a warning,
for any inputs and thresholds, including the no-data case. -/
theorem barrel_usage_critical_implies_warning (shot : ℚ) (barrel : Option ℚ)
    (warn crit : ℚ) (h : (calculate_barrel_usage shot barrel warn crit).is_critical = true) :
    (calculate_barrel_usage shot barrel warn crit).is_warning = true := by
  cases barrel with
  | none => simp [calculate_barrel_usage] at h
  | some b =>
    simp only [calculate_barrel_usage] at h ⊢
    split_ifs at h ⊢ <;> simp_all

/-- Claim C10 at a concrete input: 90 of 100 cm3 is critical and a warning. -/
theorem barrel_usage_critical_implies_warning_inst :
    (calculate_barrel_usage 90 (some 100) 70 85).is_critical = true
    ∧ (calculate_barrel_usage 90 (some 100) 70 85).is_warning = true := by
  have hc : (calculate_barrel_usage 90 (some 100) 70 85).is_critical = true := by
    norm_num [calculate_barrel_usage]
  exact ⟨hc, barrel_usage_critical_implies_warning 90 (some 100) 70 85 hc⟩

/-- Claim C2, counterexample: the code branches on the unrounded usage but
returns the rounded percent.  At shot 69.98 of barrel 100 the unrounded usage
69.98 is below 70, so the result is OK with no warning flag, yet the returned
percent is 70.0, which the claim places in the WARNING band. -/
theorem barrel_usage_bands_cex :
    (calculate_barrel_usage (6998/100) (some 100) 70 85).status = BUStatus.ok
    ∧ (calculate_barrel_usage (6998/100) (some 100) 70 85).is_warning = false
    ∧ 70 ≤ (calculate_barrel_usage (6998/100) (some 100) 70 85).percent
    ∧ (calculate_barrel_usage (6998/100) (some 100) 70 85).percent < 85 := by
  norm_num [calculate_barrel_usage, pyRound1, pythonRound]

/-- Claim C2, amended: the status bands are evaluated on the unrounded usage
shot/barrel x 100 (OK below 70, WARNING from 70 below 85, CRITICAL from 85,
the 85.0 boundary critical); the returned percent is that usage rounded
half-even to one decimal; an absent or non-positive barrel volume gives the
distinct no-data status (with percent 0 and both flags false), not an OK
usage record. -/
theorem barrel_usage_bands_spec :
    (∀ (shot b : ℚ), 0 < b →
        (calculate_barrel_usage shot (some b) 70 85).percent = pyRound1 (shot / b * 100)
        ∧ (shot / b * 100 ≥ 85 →
            calculate_barrel_usage shot (some b) 70 85
              = ⟨pyRound1 (shot / b * 100), true, true, BUStatus.critical⟩)
        ∧ (70 ≤ shot / b * 100 → shot / b * 100 < 85 →
            calculate_barrel_usage shot (some b) 70 85
              = ⟨pyRound1 (shot / b * 100), true, false, BUStatus.warning⟩)
        ∧ (shot / b * 100 < 70 →
            calculate_barrel_usage shot (some b) 70 85
              = ⟨pyRound1 (shot / b * 100), false, false, BUStatus.ok⟩))
    ∧ (∀ shot : ℚ, calculate_barrel_usage shot none 70 85 = ⟨0, false, false, BUStatus.noData⟩)
    ∧ (∀ (shot b : ℚ), b ≤ 0 →
        calculate_barrel_usage shot (some b) 70 85 = ⟨0, false, false, BUStatus.noData⟩)
    ∧ BUStatus.noData ≠ BUStatus.ok ∧ BUStatus.noData ≠ BUStatus.warning
    ∧ BUStatus.noData ≠ BUStatus.critical := by
  refine ⟨?_, ?_, ?_, by simp, by simp, by simp⟩
  · intro shot b hb
    simp only [calculate_barrel_usage]
    rw [if_neg (not_le.mpr hb)]
    refine ⟨?_, ?_, ?_, ?_⟩
    · split_ifs <;> rfl
    · intro h; split_ifs <;> first | rfl | (exfalso; linarith)
    · intro h1 h2; split_ifs <;> first | rfl | (exfalso; linarith)
    · intro h; split_ifs <;> first | rfl | (exfalso; linarith)
  · intro shot; rfl
  · intro shot b hb
    simp [calculate_barrel_usage, hb]

/-- Claim C8: with the default bounds, a positive diameter and a nonnegative
stroke give ratio = stroke/diameter rounded to two decimals, the OPTIMAL band
is the inclusive interval [1.0, 2.8], the acceptable flag is the inclusive
interval [0.5, 3.5], the three statuses are characterized by mutually
exclusive exhaustive conditions, optimal implies acceptable, and a
non-positive diameter yields the invalid-diameter result before any
computation. -/
theorem screw_ratio_spec :
    (∀ s d : ℚ, 0 ≤ s → 0 < d →
        (check_screw_diameter_ratio s d 1 (14/5) (1/2) (7/2)).ratio = pyRound2 (s / d)
        ∧ ((check_screw_diameter_ratio s d 1 (14/5) (1/2) (7/2)).is_optimal = true
            ↔ 1 ≤ s / d ∧ s / d ≤ 14/5)
        ∧ ((check_screw_diameter_ratio s d 1 (14/5) (1/2) (7/2)).is_acceptable = true
            ↔ 1/2 ≤ s / d ∧ s / d ≤ 7/2)
        ∧ ((check_screw_diameter_ratio s d 1 (14/5) (1/2) (7/2)).status = ScrewStatus.optimal
            ↔ 1 ≤ s / d ∧ s / d ≤ 14/5)
        ∧ ((check_screw_diameter_ratio s d 1 (14/5) (1/2) (7/2)).status = ScrewStatus.acceptable
            ↔ (1/2 ≤ s / d ∧ s / d ≤ 7/2) ∧ ¬(1 ≤ s / d ∧ s / d ≤ 14/5))
        ∧ ((check_screw_diameter_ratio s d 1 (14/5) (1/2) (7/2)).status = ScrewStatus.outOfRange
            ↔ ¬(1/2 ≤ s / d ∧ s / d ≤ 7/2))
        ∧ ((check_screw_diameter_ratio s d 1 (14/5) (1/2) (7/2)).is_optimal = true →
            (check_screw_diameter_ratio s d 1 (14/5) (1/2) (7/2)).is_acceptable = true))
    ∧ (∀ s d : ℚ, d ≤ 0 →
        check_screw_diameter_ratio s d 1 (14/5) (1/2) (7/2)
          = ⟨0, false, false, ScrewStatus.invalidDiameter⟩) := by
  constructor
  · intro s d hs hd
    simp only [check_screw_diameter_ratio]
    rw [if_neg (not_le.mpr hd)]
    split_ifs with h1 h2
    · exact ⟨rfl, iff_of_true rfl h1,
        iff_of_true rfl ⟨by linarith [h1.1], by linarith [h1.2]⟩,
        iff_of_true rfl h1,
        iff_of_false (by simp) (fun hc => hc.2 h1),
        iff_of_false (by simp) (fun hc => hc ⟨by linarith [h1.1], by linarith [h1.2]⟩),
        by simp⟩
    · exact ⟨rfl, iff_of_false (by simp) h1, iff_of_true rfl h2,
        iff_of_false (by simp) h1, iff_of_true rfl ⟨h2, h1⟩,
        iff_of_false (by simp) (fun hc => hc h2), by simp⟩
    · exact ⟨rfl, iff_of_false (by simp) h1, iff_of_false (by simp) h2,
        iff_of_false (by simp) h1, iff_of_false (by simp) (fun hc => h2 hc.1),
        iff_of_true rfl h2, by simp⟩
  · intro s d hd
    simp [check_screw_diameter_ratio, hd]

/-- Claim C5: the tool fits exactly when the issue list is empty (warnings
play no part in the decision), and each individual block of check_machine_fit
contributes no issue and no warning when one of its required inputs is
absent. -/
theorem machine_fit_spec :
    (∀ tw th tl rc m rs,
        ((check_machine_fit tw th tl rc m rs).fits = true
          ↔ (check_machine_fit tw th tl rc m rs).issues = []))
    ∧ (∀ tw m, tw = none ∨ m.platen_width_mm = none → platen_width_check tw m = ([], []))
    ∧ (∀ th m, th = none ∨ m.platen_height_mm = none → platen_height_check th m = ([], []))
    ∧ (∀ tw m, tw = none ∨ m.tie_bar_spacing_h_mm = none → tie_bar_h_check tw m = ([], []))
    ∧ (∀ th m, th = none ∨ m.tie_bar_spacing_v_mm = none → tie_bar_v_check th m = ([], []))
    ∧ (∀ tl m, tl = none → mold_height_check tl m = ([], []))
    ∧ (∀ tl m, m.max_mold_height_mm = none → m.min_mold_height_mm = none →
        mold_height_check tl m = ([], []))
    ∧ (∀ rc m, rc = none ∨ m.clamping_force_kn = none → clamping_check rc m = ([], []))
    ∧ (∀ rs m, rs = none ∨ m.shot_weight_g = none → shot_weight_check rs m = ([], [])) := by
  refine ⟨?_, ?_, ?_, ?_, ?_, ?_, ?_, ?_, ?_⟩
  · intro tw th tl rc m rs
    simp only [check_machine_fit]
    exact List.isEmpty_iff
  · intro tw m h; rcases h with h | h <;> simp [platen_width_check, h, pyTruthy]
  · intro th m h; rcases h with h | h <;> simp [platen_height_check, h, pyTruthy]
  · intro tw m h; rcases h with h | h <;> simp [tie_bar_h_check, h, pyTruthy]
  · intro th m h; rcases h with h | h <;> simp [tie_bar_v_check, h, pyTruthy]
  · intro tl m h; simp [mold_height_check, h, pyTruthy]
  · intro tl m h1 h2; simp [mold_height_check, h1, h2, pyTruthy]
  · intro rc m h; rcases h with h | h <;> simp [clamping_check, h, pyTruthy]
  · intro rs m h; rcases h with h | h <;> simp [shot_weight_check, h, pyTruthy]

/-- Claim C1, counterexample: with the use-max flag set, the from-material
calculation uses the max pressure (700 bar, force 840 kN) even though the
material average (650 bar, claimed force 780 kN) is present, contradicting
the claimed order in which the max is only a fallback when no average
resolves. -/
theorem clamping_pressure_selection_cex :
    calculate_clamping_force_from_material 100 ⟨some 600, some 700⟩ 1 (6/5) true = some 840
    ∧ Material.specific_pressure_avg_bar ⟨some 600, some 700⟩ = some 650
    ∧ calculate_clamping_force 100 650 1 (6/5) = 780
    ∧ (840:ℚ) ≠ 780 := by
  refine ⟨?_, ?_, ?_, by norm_num⟩
  · norm_num [calculate_clamping_force_from_material, calculate_clamping_force,
      pyRound1, pythonRound]
  · norm_num [Material.specific_pressure_avg_bar, pyTruthy, pyOr]
  · norm_num [calculate_clamping_force, pyRound1, pythonRound]

/-- Claim C1, amended: in the multi-part tool calculation the pressure is the
manual override when it is present and nonzero, else the material average,
and a None pressure yields the no-pressure-data failure rather than a
zero-pressure force; the use-max flag exists only in the from-material
variant, where it selects the max pressure instead of (not after) the
average, and there too a missing selected pressure yields None. -/
theorem clamping_pressure_selection_spec :
    (∀ (area : ℚ) (m : Material) (cav : ℤ) (sf : ℚ),
        calculate_clamping_force_from_material area m cav sf true
          = Option.map (fun p => calculate_clamping_force area p cav sf)
              m.specific_pressure_max_bar)
    ∧ (∀ (area : ℚ) (m : Material) (cav : ℤ) (sf : ℚ),
        calculate_clamping_force_from_material area m cav sf false
          = Option.map (fun p => calculate_clamping_force area p cav sf)
              m.specific_pressure_avg_bar)
    ∧ (∀ (tool : Tool) (m : Material) (sf p : ℚ), p ≠ 0 →
        tool.part_configurations ≠ [] →
        calculate_clamping_force_for_tool tool m (some p) sf
          = (some (pyRound1 (tool_parts_force tool.part_configurations p sf)),
             CFNote.computed PressureSource.manualOverride))
    ∧ (∀ (tool : Tool) (m : Material) (ov : Option ℚ) (sf : ℚ),
        pyTruthy ov = false → m.specific_pressure_avg_bar = none →
        calculate_clamping_force_for_tool tool m ov sf = (none, CFNote.noPressureData))
    ∧ (∀ (tool : Tool) (m : Material) (ov : Option ℚ) (sf q : ℚ),
        pyTruthy ov = false → m.specific_pressure_avg_bar = some q →
        tool.part_configurations ≠ [] →
        calculate_clamping_force_for_tool tool m ov sf
          = (some (pyRound1 (tool_parts_force tool.part_configurations q sf)),
             CFNote.computed PressureSource.materialAvg)) := by
  refine ⟨?_, ?_, ?_, ?_, ?_⟩
  · intro area m cav sf
    cases hmx : m.specific_pressure_max_bar <;>
      simp [calculate_clamping_force_from_material, hmx]
  · intro area m cav sf
    cases havg : m.specific_pressure_avg_bar <;>
      simp [calculate_clamping_force_from_material, havg]
  · intro tool m sf p hp hne
    have ht : pyTruthy (some p) = true := by simp [pyTruthy, hp]
    simp [calculate_clamping_force_for_tool, ht, List.isEmpty_iff, hne]
  · intro tool m ov sf h1 h2
    simp [calculate_clamping_force_for_tool, h1, h2]
  · intro tool m ov sf q h1 h2 hne
    simp [calculate_clamping_force_for_tool, h1, h2, List.isEmpty_iff, hne]

/-- Clamping to [1, mc] erases the difference between Python's int(x + 0.5)
truncation and half-up rounding, since they differ only below zero. -/
theorem clamped_pytrunc_eq (x : ℚ) (mc : ℤ) (hmc : 1 ≤ mc) :
    max 1 (min (pytrunc (x + 1/2)) mc) = max 1 (min (roundHalfUp x) mc) := by
  unfold pytrunc roundHalfUp
  split_ifs with h
  · rfl
  · have hx : x + 1/2 < 0 := not_le.mp h
    have hc : ⌈x + 1/2⌉ ≤ (0:ℤ) := Int.ceil_le.mpr (by push_cast; linarith)
    have hf : ⌊x + 1/2⌋ ≤ 0 := Int.floor_nonpos (le_of_lt hx)
    omega

/-- Claim C6: for a positive cycle time (and positive capacity parameters,
cap at least 1) the recommendation is clamp(round(demand / parts-per-cavity-
per-year), 1, max_cavities) with parts_per_cavity_per_year =
(3600/cycle) x (hours x weeks x target utilization) x efficiency, round read
as ordinary half-up rounding; the result lies in [1, max_cavities]; and a
non-positive cycle time returns 1. -/
theorem cavity_recommendation_spec :
    (∀ (demand : ℤ) (ct tu avail : ℚ) (weeks : ℤ) (eff : ℚ) (maxcav : ℤ),
        0 < ct → 0 < tu → 0 < avail → 0 < weeks → 0 < eff → 1 ≤ maxcav →
        check_cavity_recommendation demand ct tu avail weeks eff maxcav
          = max 1 (min (roundHalfUp
              ((demand : ℚ) / cavity_parts_per_cavity_per_year ct tu avail weeks eff)) maxcav)
        ∧ 1 ≤ check_cavity_recommendation demand ct tu avail weeks eff maxcav
        ∧ check_cavity_recommendation demand ct tu avail weeks eff maxcav ≤ maxcav)
    ∧ (∀ (demand : ℤ) (ct tu avail : ℚ) (weeks : ℤ) (eff : ℚ) (maxcav : ℤ),
        ct ≤ 0 → check_cavity_recommendation demand ct tu avail weeks eff maxcav = 1) := by
  constructor
  · intro demand ct tu avail weeks eff maxcav hct htu havail hweeks heff hmax
    have hw : (0:ℚ) < (weeks : ℚ) := by exact_mod_cast hweeks
    have hppcy : 0 < cavity_parts_per_cavity_per_year ct tu avail weeks eff := by
      unfold cavity_parts_per_cavity_per_year
      exact mul_pos (mul_pos (div_pos (by norm_num) hct)
        (mul_pos (mul_pos havail hw) htu)) heff
    simp only [check_cavity_recommendation]
    rw [if_neg (not_le.mpr hct), if_neg (not_le.mpr hppcy)]
    refine ⟨clamped_pytrunc_eq _ _ hmax, le_max_left 1 _,
      max_le hmax (min_le_right _ _)⟩
  · intro demand ct tu avail weeks eff maxcav h
    simp [check_cavity_recommendation, h]

/-- Claim C9, counterexample: at weight 0.001 g and density 1 g/cm3 (both
positive) the volume rounds to 0.00, and converting that volume back to a
weight returns None, so the round trip is not defined for every positive
weight and density. -/
theorem weight_volume_roundtrip_cex :
    (0:ℚ) < 1/1000 ∧ (0:ℚ) < 1
    ∧ auto_calculate_volume (1/1000) 1 = some 0
    ∧ (auto_calculate_volume (1/1000) 1).bind (fun v => auto_calculate_weight v 1) = none := by
  refine ⟨by norm_num, by norm_num, ?_, ?_⟩
  · norm_num [auto_calculate_volume, pyRound2, pythonRound]
  · norm_num [auto_calculate_volume, auto_calculate_weight, pyRound2, pythonRound]

/-- Claim C9, amended: for w > 0 and d > 0 with w/d above 0.005 (so the
two-decimal rounded volume stays positive), the round trip is defined and
returns a weight within 0.005 x d + 0.005 of w, the error of rounding each
conversion to two decimals. -/
theorem weight_volume_roundtrip (w d : ℚ) (hw : 0 < w) (hd : 0 < d)
    (hbig : 1/200 < w / d) :
    ∃ v r : ℚ, auto_calculate_volume w d = some v ∧ auto_calculate_weight v d = some r
      ∧ |r - w| ≤ d/200 + 1/200 := by
  have hv : auto_calculate_volume w d = some (pyRound2 (w / d)) := by
    unfold auto_calculate_volume
    rw [if_neg (by push_neg; exact ⟨hw, hd⟩)]
  have hvpos : 0 < pyRound2 (w / d) :=
    lt_of_lt_of_le (by norm_num) (le_pyRound2_of_gt hbig)
  have hr : auto_calculate_weight (pyRound2 (w / d)) d
      = some (pyRound2 (pyRound2 (w / d) * d)) := by
    unfold auto_calculate_weight
    rw [if_neg (by push_neg; exact ⟨hvpos, hd⟩)]
  refine ⟨pyRound2 (w / d), pyRound2 (pyRound2 (w / d) * d), hv, hr, ?_⟩
  have e1 : |pyRound2 (w / d) - w / d| ≤ 1/200 := abs_pyRound2_sub (w / d)
  have e2 : |pyRound2 (pyRound2 (w / d) * d) - pyRound2 (w / d) * d| ≤ 1/200 :=
    abs_pyRound2_sub _
  have e3 : |pyRound2 (w / d) * d - w| ≤ d/200 := by
    have he : (pyRound2 (w / d) - w / d) * d = pyRound2 (w / d) * d - w := by
      rw [sub_mul, div_mul_cancel₀ _ (ne_of_gt hd)]
    rw [← he, abs_mul, abs_of_pos hd]
    calc |pyRound2 (w / d) - w / d| * d ≤ (1/200) * d :=
          mul_le_mul_of_nonneg_right e1 (le_of_lt hd)
      _ = d/200 := by ring
  calc |pyRound2 (pyRound2 (w / d) * d) - w|
      ≤ |pyRound2 (pyRound2 (w / d) * d) - pyRound2 (w / d) * d|
          + |pyRound2 (w / d) * d - w| := abs_sub_le _ _ _
    _ ≤ 1/200 + d/200 := add_le_add e2 e3
    _ = d/200 + 1/200 := by ring

/-- Claim C9 at a concrete input: 10 g at density 2 g/cm3 round-trips. -/
theorem weight_volume_roundtrip_inst :
    ∃ v r : ℚ, auto_calculate_volume 10 2 = some v ∧ auto_calculate_weight v 2 = some r
      ∧ |r - 10| ≤ 2/200 + 1/200 :=
  weight_volume_roundtrip 10 2 (by norm_num) (by norm_num) (by norm_num)

/-- Claim C4: with positive cycle time and cavities the decision is the first
matching rule in order (hours needed over available: infeasible; utilization
over 95: infeasible; over 85: feasible with high-utilization warning; under
30: feasible with low-utilization warning; else feasible, no band warning),
and independently a cycle time under 3 s or over 120 s always contributes its
plausibility warning. -/
theorem demand_feasibility_decision_order (d : ℤ) (ct : ℚ) (cav : ℤ)
    (avail : ℚ) (weeks : ℤ) (eff : ℚ) (hct : 0 < ct) (hcav : 0 < cav) :
    (demand_hours_needed_per_week d ct cav eff weeks > avail →
        (check_demand_feasibility d ct cav avail weeks eff).feasible = false
        ∧ (check_demand_feasibility d ct cav avail weeks eff).issues
            = [DemandIssue.hoursExceedAvailable])
    ∧ (¬ demand_hours_needed_per_week d ct cav eff weeks > avail →
        demand_utilization d ct cav avail weeks eff > 95 →
        (check_demand_feasibility d ct cav avail weeks eff).feasible = false
        ∧ (check_demand_feasibility d ct cav avail weeks eff).issues
            = [DemandIssue.utilizationTooHigh])
    ∧ (¬ demand_hours_needed_per_week d ct cav eff weeks > avail →
        ¬ demand_utilization d ct cav avail weeks eff > 95 →
        demand_utilization d ct cav avail weeks eff > 85 →
        (check_demand_feasibility d ct cav avail weeks eff).feasible = true
        ∧ (check_demand_feasibility d ct cav avail weeks eff).issues = []
        ∧ (check_demand_feasibility d ct cav avail weeks eff).warnings
            = DemandWarning.highUtilization :: plausibility_warnings ct)
    ∧ (¬ demand_hours_needed_per_week d ct cav eff weeks > avail →
        ¬ demand_utilization d ct cav avail weeks eff > 95 →
        ¬ demand_utilization d ct cav avail weeks eff > 85 →
        demand_utilization d ct cav avail weeks eff < 30 →
        (check_demand_feasibility d ct cav avail weeks eff).feasible = true
        ∧ (check_demand_feasibility d ct cav avail weeks eff).issues = []
        ∧ (check_demand_feasibility d ct cav avail weeks eff).warnings
            = DemandWarning.lowUtilization :: plausibility_warnings ct)
    ∧ (¬ demand_hours_needed_per_week d ct cav eff weeks > avail →
        ¬ demand_utilization d ct cav avail weeks eff > 95 →
        ¬ demand_utilization d ct cav avail weeks eff > 85 →
        ¬ demand_utilization d ct cav avail weeks eff < 30 →
        (check_demand_feasibility d ct cav avail weeks eff).feasible = true
        ∧ (check_demand_feasibility d ct cav avail weeks eff).issues = []
        ∧ (check_demand_feasibility d ct cav avail weeks eff).warnings
            = plausibility_warnings ct)
    ∧ (ct < 3 →
        DemandWarning.veryShortCycleTime
          ∈ (check_demand_feasibility d ct cav avail weeks eff).warnings)
    ∧ (ct > 120 →
        DemandWarning.longCycleTime
          ∈ (check_demand_feasibility d ct cav avail weeks eff).warnings) := by
  have h1 : ¬ ct ≤ 0 := not_le.mpr hct
  have h2 : ¬ cav ≤ 0 := not_le.mpr hcav
  simp only [check_demand_feasibility]
  rw [if_neg h1, if_neg h2]
  refine ⟨?_, ?_, ?_, ?_, ?_, ?_, ?_⟩
  · intro hw; rw [if_pos hw]; exact ⟨rfl, rfl⟩
  · intro hw hu; rw [if_neg hw, if_pos hu]; exact ⟨rfl, rfl⟩
  · intro hw hu hu85; rw [if_neg hw, if_neg hu, if_pos hu85]; exact ⟨rfl, rfl, rfl⟩
  · intro hw hu hu85 hu30
    rw [if_neg hw, if_neg hu, if_neg hu85, if_pos hu30]; exact ⟨rfl, rfl, rfl⟩
  · intro hw hu hu85 hu30
    rw [if_neg hw, if_neg hu, if_neg hu85, if_neg hu30]; exact ⟨rfl, rfl, rfl⟩
  · intro h3
    simp [plausibility_warnings, h3, List.mem_append]
  · intro h120
    simp [plausibility_warnings, h120, List.mem_append]

/-- Claim C4 at a concrete input: a demand of one billion parts on one
cavity at 10 s exceeds the available weekly hours and is infeasible. -/
theorem demand_feasibility_decision_order_inst :
    (check_demand_feasibility 1000000000 10 1 120 50 (17/20)).feasible = false :=
  ((demand_feasibility_decision_order 1000000000 10 1 120 50 (17/20)
      (by norm_num) (by norm_num)).1
    (by norm_num [demand_hours_needed_per_week, demand_hours_needed_per_year,
      demand_parts_per_hour])).1

/-- Utilization grows with demand when every capacity parameter is positive. -/
theorem demand_utilization_mono (d1 d2 : ℤ) (ct : ℚ) (cav : ℤ) (avail : ℚ)
    (weeks : ℤ) (eff : ℚ) (hct : 0 < ct) (hcav : 0 < cav) (havail : 0 < avail)
    (hweeks : 0 < weeks) (heff : 0 < eff) (hd : d1 ≤ d2) :
    demand_utilization d1 ct cav avail weeks eff
      ≤ demand_utilization d2 ct cav avail weeks eff := by
  unfold demand_utilization demand_hours_needed_per_year demand_parts_per_hour
  have hcavq : (0:ℚ) < (cav : ℚ) := by exact_mod_cast hcav
  have hwq : (0:ℚ) < (weeks : ℚ) := by exact_mod_cast hweeks
  have hpph : (0:ℚ) < 3600 / ct * cav * eff :=
    mul_pos (mul_pos (div_pos (by norm_num) hct) hcavq) heff
  have hden : (0:ℚ) < avail * weeks := mul_pos havail hwq
  have hdq : (d1:ℚ) ≤ (d2:ℚ) := by exact_mod_cast hd
  have s1 := (div_le_div_right hpph).mpr hdq
  have s2 := (div_le_div_right hden).mpr s1
  exact mul_le_mul_of_nonneg_right s2 (by norm_num)

/-- Utilization above 95 makes the check infeasible: either the hours rule or
the utilization rule fires, and both raise an issue. -/
theorem demand_infeasible_of_high_util (d : ℤ) (ct : ℚ) (cav : ℤ) (avail : ℚ)
    (weeks : ℤ) (eff : ℚ) (hct : 0 < ct) (hcav : 0 < cav)
    (hu : demand_utilization d ct cav avail weeks eff > 95) :
    (check_demand_feasibility d ct cav avail weeks eff).feasible = false := by
  simp only [check_demand_feasibility]
  rw [if_neg (not_le.mpr hct), if_neg (not_le.mpr hcav)]
  by_cases hw : demand_hours_needed_per_week d ct cav eff weeks > avail
  · rw [if_pos hw]; rfl
  · rw [if_neg hw, if_pos hu]; rfl

/-- Claim C7: holding cycle time, cavities, available hours, weeks and
efficiency fixed and positive, a larger demand never lowers the reported
utilization percent, and once utilization exceeds 95 the check is infeasible
for that demand and for every larger one. -/
theorem demand_feasibility_monotone (d1 d2 : ℤ) (ct : ℚ) (cav : ℤ) (avail : ℚ)
    (weeks : ℤ) (eff : ℚ) (hct : 0 < ct) (hcav : 0 < cav) (havail : 0 < avail)
    (hweeks : 0 < weeks) (heff : 0 < eff) (hd : d1 ≤ d2) :
    (check_demand_feasibility d1 ct cav avail weeks eff).utilization_percent
      ≤ (check_demand_feasibility d2 ct cav avail weeks eff).utilization_percent
    ∧ (demand_utilization d1 ct cav avail weeks eff > 95 →
        (check_demand_feasibility d1 ct cav avail weeks eff).feasible = false
        ∧ (check_demand_feasibility d2 ct cav avail weeks eff).feasible = false) := by
  have hmono := demand_utilization_mono d1 d2 ct cav avail weeks eff
    hct hcav havail hweeks heff hd
  constructor
  · have hp : ∀ d : ℤ, (check_demand_feasibility d ct cav avail weeks eff).utilization_percent
        = pyRound1 (demand_utilization d ct cav avail weeks eff) := by
      intro d
      simp only [check_demand_feasibility]
      rw [if_neg (not_le.mpr hct), if_neg (not_le.mpr hcav)]
    rw [hp d1, hp d2]
    exact pyRound1_mono hmono
  · intro hu
    exact ⟨demand_infeasible_of_high_util d1 ct cav avail weeks eff hct hcav hu,
           demand_infeasible_of_high_util d2 ct cav avail weeks eff hct hcav
             (lt_of_lt_of_le hu hmono)⟩

/-- Claim C7 at a concrete input: demand 1000 versus 2000 at 10 s cycle. -/
theorem demand_feasibility_monotone_inst :
    (check_demand_feasibility 1000 10 1 120 50 (17/20)).utilization_percent
      ≤ (check_demand_feasibility 2000 10 1 120 50 (17/20)).utilization_percent :=
  (demand_feasibility_monotone 1000 2000 10 1 120 50 (17/20) (by norm_num) (by norm_num)
    (by norm_num) (by norm_num) (by norm_num) (by norm_num)).1
